import Mathlib

/-
Verification of the structured-logging pipeline of the repository
(src/app/log.py, src/app/settings.py, src/app/main.py, src/app/tkq.py,
src/app/task_test.py), as a shallow embedding in Lean 4.

The event dictionary carried through the processor chain is modelled as an
association list of string keys to values, with Python-dict update and pop
semantics. The logging module state (per-name logger registry, root handler
list, installed exception hook) is modelled explicitly, and setup_logging is
translated statement by statement from src/app/log.py.
-/

namespace App

/-- A value stored in an event dictionary (string, number or boolean). -/
inductive Value where
  | str : String → Value
  | int : Int → Value
  | bool : Bool → Value
deriving DecidableEq, Repr

/-- The in-flight event record: an ordered mapping from field name to value,
as carried through structlog processors (EventDict in the source). -/
abbrev EventDict := List (String × Value)

/-- Key lookup in an event dictionary (first matching entry). -/
def lookupKey : EventDict → String → Option Value
  | [], _ => none
  | (k1, v1) :: rest, k => if k1 = k then some v1 else lookupKey rest k

/-- Whether a key is present in the event dictionary. -/
abbrev hasKey (d : EventDict) (k : String) : Bool := (lookupKey d k).isSome

/-- Python dict assignment semantics: overwrite in place when the key exists,
append a new entry otherwise. -/
def dictSet : EventDict → String → Value → EventDict
  | [], k, v => [(k, v)]
  | (k1, v1) :: rest, k, v =>
    if k1 = k then (k, v) :: rest else (k1, v1) :: dictSet rest k v

/-- Python dict.pop with a default: remove the (first, hence for a genuine
dict the only) entry with the given key, leaving the rest untouched. -/
def dictPop : EventDict → String → EventDict
  | [], _ => []
  | (k1, v1) :: rest, k => if k1 = k then rest else (k1, v1) :: dictPop rest k

/-- Embedding of src/app/log.py set_process_id (lines 16-18): write the
process identifier into the event dictionary under the key process_id.
The pid argument stands for the value returned by os.getpid, which is
constant for the lifetime of the process. -/
def set_process_id (pid : Nat) (d : EventDict) : EventDict :=
  dictSet d "process_id" (Value.int pid)

/-- Embedding of src/app/log.py drop_color_message_key (lines 21-23):
event_dict.pop with key color_message and default None. -/
def drop_color_message_key (d : EventDict) : EventDict :=
  dictPop d "color_message"

/-- One stage of the shared processor chain of setup_logging, named after the
structlog processor (or local helper) the source installs at that position. -/
inductive ProcessorTag where
  | mergeContextvars
  | addLoggerName
  | setProcessId
  | addLogLevel
  | positionalArgumentsFormatter
  | extraAdder
  | dropColorMessageKey
  | timeStamperISO
  | stackInfoRenderer
  | unicodeDecoder
  | callsiteParameterAdder
  | formatExcInfo
deriving DecidableEq, Repr

/-- The shared_processors list built in setup_logging (src/app/log.py lines
63-86), with format_exc_info appended (line 88) exactly when LOG_JSON_FORMAT
is set, i.e. when the render mode is the structured one. -/
def sharedProcessors (logJsonFormat : Bool) : List ProcessorTag :=
  [ProcessorTag.mergeContextvars,
   ProcessorTag.addLoggerName,
   ProcessorTag.setProcessId,
   ProcessorTag.addLogLevel,
   ProcessorTag.positionalArgumentsFormatter,
   ProcessorTag.extraAdder,
   ProcessorTag.dropColorMessageKey,
   ProcessorTag.timeStamperISO,
   ProcessorTag.stackInfoRenderer,
   ProcessorTag.unicodeDecoder,
   ProcessorTag.callsiteParameterAdder]
  ++ (if logJsonFormat then [ProcessorTag.formatExcInfo] else [])

/-- Apply a list of processors left to right, given a semantics for each
stage. The third-party stages are external collaborators, so the theorems
below quantify over their semantics instead of inventing one. -/
def applyChain (interp : ProcessorTag → EventDict → EventDict) :
    List ProcessorTag → EventDict → EventDict
  | [], d => d
  | p :: ps, d => applyChain interp ps (interp p d)

/-- ProcessorFormatter.remove_processors_meta: drop the internal keys before
rendering (src/app/log.py line 124). -/
def removeProcessorsMeta (d : EventDict) : EventDict :=
  dictPop (dictPop d "_record") "_from_structlog"

/-- The foreign_pre_chain the source hands to the ProcessorFormatter
(src/app/log.py line 119): it is the very shared_processors list. -/
def foreignPreChain (logJsonFormat : Bool) : List ProcessorTag :=
  sharedProcessors logJsonFormat

/-- The ProcessorFormatter built in setup_logging (lines 117-127): records
that did not originate in structlog first run through foreign_pre_chain;
every record then has the meta keys removed and is rendered. -/
def processorFormatterOutput (interp : ProcessorTag → EventDict → EventDict)
    (render : EventDict → String) (logJsonFormat : Bool)
    (fromStructlog : Bool) (d : EventDict) : String :=
  let d1 := if fromStructlog then d
            else applyChain interp (foreignPreChain logJsonFormat) d
  render (removeProcessorsMeta d1)

/-- The native structured-call path: structlog.configure installs the shared
processors followed by wrap_for_formatter (lines 91-96), so a native record
reaches the formatter already enriched and marked as coming from structlog. -/
def nativeOutput (interp : ProcessorTag → EventDict → EventDict)
    (render : EventDict → String) (logJsonFormat : Bool)
    (d : EventDict) : String :=
  processorFormatterOutput interp render logJsonFormat true
    (applyChain interp (sharedProcessors logJsonFormat) d)

/-- The legacy/foreign path: a plain stdlib record reaches the formatter
unenriched and not marked, so the formatter applies foreign_pre_chain. -/
def foreignOutput (interp : ProcessorTag → EventDict → EventDict)
    (render : EventDict → String) (logJsonFormat : Bool)
    (d : EventDict) : String :=
  processorFormatterOutput interp render logJsonFormat false d

/-- Embedding of src/app/settings.py LogLevel (lines 9-17): a string-valued
enumeration declared in the order NOTSET, DEBUG, INFO, WARNING, ERROR,
FATAL. -/
inductive LogLevel where
  | NOTSET
  | DEBUG
  | INFO
  | WARNING
  | ERROR
  | FATAL
deriving DecidableEq, Repr, Fintype

/-- The string value each LogLevel member carries in the source. -/
def LogLevel.val : LogLevel → String
  | .NOTSET => "NOTSET"
  | .DEBUG => "DEBUG"
  | .INFO => "INFO"
  | .WARNING => "WARNING"
  | .ERROR => "ERROR"
  | .FATAL => "FATAL"

/-- Lexicographic comparison of character sequences by code point, the
comparison CPython performs on str values. -/
def charsLt : List Char → List Char → Bool
  | [], [] => false
  | [], _ :: _ => true
  | _ :: _, [] => false
  | c1 :: r1, c2 :: r2 =>
    if c1.toNat < c2.toNat then true
    else if c2.toNat < c1.toNat then false
    else charsLt r1 r2

/-- The comparison LogLevel actually inherits: the class mixes in str, so
member comparison is the lexicographic comparison of the string values. -/
def levelLt (a b : LogLevel) : Prop := charsLt a.val.data b.val.data = true

instance (a b : LogLevel) : Decidable (levelLt a b) :=
  inferInstanceAs (Decidable (charsLt a.val.data b.val.data = true))

/-- Embedding of src/app/settings.py Settings (lines 20-39), restricted to
the two logging options; the pydantic field defaults are INFO and False. -/
structure Settings where
  LOG_LEVEL : LogLevel := LogLevel.INFO
  LOG_JSON_FORMAT : Bool := false

/-- A Settings instance holding only the defaults (nothing supplied). -/
def defaultSettings : Settings := {}

/-- The module-level constant LOG_LEVEL of src/app/log.py (line 12). It is a
hard-coded string, not read from Settings. -/
def LOG_LEVEL : String := "INFO"

/-- The module-level constant LOG_JSON_FORMAT of src/app/log.py (line 13). -/
def LOG_JSON_FORMAT : Bool := false

/-- The Python module name of src/app/log.py, the value the interpreter
binds to the name dunder inside that module. -/
def MODULE_NAME : String := "app.log"

/-- The state of one named stdlib logger: how many handlers are attached
directly to it, and its propagate flag (Python default: no handlers,
propagate True). -/
structure LoggerState where
  handlers : Nat
  propagate : Bool
deriving DecidableEq, Repr

/-- Identity of an installed top-level exception hook: the interpreter
built-in default (sys dunder excepthook), some other hook installed earlier
by third-party code, or the handler setup_logging installs. -/
inductive HookRef where
  | interpreterDefault
  | custom : Nat → HookRef
  | appHandler
deriving DecidableEq, Repr

/-- The process-wide logging state touched by setup_logging: the registry of
named loggers, the root logger handler count and level, which renderer
branch was configured, and the installed exception hook. -/
structure SysState where
  loggers : String → LoggerState
  rootHandlers : Nat
  rootLevel : String
  renderJson : Bool
  excepthook : HookRef

/-- Point update of one named logger in the registry. -/
def updateLogger (st : SysState) (name : String)
    (f : LoggerState → LoggerState) : SysState :=
  { st with loggers := fun n => if n = name then f (st.loggers n) else st.loggers n }

/-- The two-statement pattern handlers.clear() then propagate := p applied to
one named logger. -/
def clearHandlersSetPropagate (st : SysState) (name : String) (p : Bool) :
    SysState :=
  updateLogger st name (fun l => { l with handlers := 0, propagate := p })

/-- The list iterated by the uvicorn loop (src/app/log.py line 143). -/
def uvicornLoggerNames : List String := ["uvicorn", "uvicorn.error"]

/-- The uvicorn loop (lines 143-145): for each name in the list, clear that
logger and let it propagate to the root logger. -/
def applyUvicornLoop (st : SysState) : SysState :=
  uvicornLoggerNames.foldl (fun s nm => clearHandlersSetPropagate s nm true) st

/-- The list iterated by the taskiq loop (src/app/log.py line 158). -/
def taskiqLoggerNames : List String :=
  ["taskiq", "taskiq.worker", "taskiq.broker", "taskiq.scheduler"]

/-- The taskiq loop as written (lines 158-160): the body ignores the loop
variable, fetches the logger named by the module name dunder instead, sets
its propagate flag to False, and never clears any handlers. -/
def applyTaskiqLoop (st : SysState) : SysState :=
  taskiqLoggerNames.foldl
    (fun s _log => updateLogger s MODULE_NAME (fun l => { l with propagate := false }))
    st

/-- Embedding of setup_logging (src/app/log.py lines 26-177) as a transformer
of the process-wide logging state. The Settings argument stands for the
settings object the process has loaded; the body never consults it, exactly
as the source reads only the module constants of lines 12-13. In source
order: attach one new StreamHandler to the root logger and set its level
from the module constant (lines 130-135), configure the renderer branch from
the module constant (lines 88, 101-113), apply the uvicorn loop (143-145),
silence uvicorn.access (151-152) and pymongo.topology (155-156), run the
taskiq loop (158-160), and install the exception hook (190). -/
def setup_logging (_s : Settings) (st : SysState) : SysState :=
  let st1 := { st with
    rootHandlers := st.rootHandlers + 1,
    -- line 135: setLevel(LOG_LEVEL.upper()); the constant is already the
    -- uppercase literal, so upper() returns it unchanged
    rootLevel := LOG_LEVEL,
    renderJson := LOG_JSON_FORMAT }
  let st2 := applyUvicornLoop st1
  let st3 := clearHandlersSetPropagate st2 "uvicorn.access" false
  let st4 := clearHandlersSetPropagate st3 "pymongo.topology" false
  let st5 := applyTaskiqLoop st4
  { st5 with excepthook := HookRef.appHandler }

/-- The exception information handed to a top-level exception hook: whether
the exception class is (a subclass of) KeyboardInterrupt, plus its type
name, message and formatted traceback. -/
structure ExcInfo where
  isKeyboardInterrupt : Bool
  typeName : String
  message : String
  trace : String
deriving DecidableEq, Repr

/-- A log record as emitted by the hook: severity, event text, and the
attached exception triple when present. -/
structure Record where
  level : String
  event : String
  excInfo : Option (String × String × String)
deriving DecidableEq, Repr

/-- What one invocation of the installed hook does: which pre-existing hook
it delegates to, if any, and which records it emits through the root
logger. -/
structure HookOutcome where
  delegatedTo : Option HookRef
  emitted : List Record
deriving DecidableEq, Repr

/-- Embedding of the handle_exception closure (src/app/log.py lines 162-177):
for a KeyboardInterrupt it calls the interpreter built-in default hook
(sys dunder excepthook) and returns without logging; for every other
exception it calls root_logger.critical with the message Uncaught exception
and the exception triple as exc_info, and returns, leaving default
termination to proceed. -/
def handle_exception (e : ExcInfo) : HookOutcome :=
  if e.isKeyboardInterrupt then
    { delegatedTo := some HookRef.interpreterDefault, emitted := [] }
  else
    { delegatedTo := none,
      emitted := [{ level := "critical", event := "Uncaught exception",
                    excInfo := some (e.typeName, e.message, e.trace) }] }

/-! Helper lemmas about the dictionary operations. -/

theorem lookupKey_eq_none_of_not_mem (d : EventDict) (k : String)
    (h : ¬ k ∈ d.map Prod.fst) : lookupKey d k = none := by
  induction d with
  | nil => rfl
  | cons hd tl ih =>
    obtain ⟨k1, v1⟩ := hd
    simp only [List.map_cons, List.mem_cons, not_or] at h
    obtain ⟨h1, h2⟩ := h
    have h1b : ¬ k1 = k := fun e => h1 e.symm
    simp [lookupKey, h1b, ih h2]

theorem lookupKey_dictSet_self (d : EventDict) (k : String) (v : Value) :
    lookupKey (dictSet d k v) k = some v := by
  induction d with
  | nil => simp [dictSet, lookupKey]
  | cons hd tl ih =>
    obtain ⟨k1, v1⟩ := hd
    by_cases h : k1 = k
    · simp [dictSet, h, lookupKey]
    · simp [dictSet, h, lookupKey, ih]

theorem dictPop_of_hasKey_false (d : EventDict) (k : String)
    (h : hasKey d k = false) : dictPop d k = d := by
  induction d with
  | nil => rfl
  | cons hd tl ih =>
    obtain ⟨k1, v1⟩ := hd
    by_cases hk : k1 = k
    · exfalso
      simp [hasKey, lookupKey, hk] at h
    · simp only [hasKey, lookupKey, hk, if_false] at h
      simp [dictPop, hk, ih h]

theorem lookupKey_dictPop_ne (d : EventDict) (k0 k : String) (h : k ≠ k0) :
    lookupKey (dictPop d k0) k = lookupKey d k := by
  induction d with
  | nil => rfl
  | cons hd tl ih =>
    obtain ⟨k1, v1⟩ := hd
    by_cases h1 : k1 = k0
    · have h2 : ¬ k1 = k := fun e => h (e.symm.trans h1)
      have h3 : ¬ k0 = k := fun e => h e.symm
      simp [dictPop, h1, lookupKey, h2, h3]
    · by_cases h2 : k1 = k
      · simp [dictPop, h1, lookupKey, h2, h]
      · simp [dictPop, h1, lookupKey, h2, ih]

theorem lookupKey_dictPop_self (d : EventDict) (k0 : String)
    (h : (d.map Prod.fst).Nodup) : lookupKey (dictPop d k0) k0 = none := by
  induction d with
  | nil => rfl
  | cons hd tl ih =>
    obtain ⟨k1, v1⟩ := hd
    simp only [List.map_cons, List.nodup_cons] at h
    obtain ⟨hnm, hnd⟩ := h
    by_cases h1 : k1 = k0
    · subst h1
      simp only [dictPop, if_pos rfl]
      exact lookupKey_eq_none_of_not_mem tl k1 hnm
    · simp [dictPop, h1, lookupKey, ih hnd]

/-! Concrete scenario states used by the claim theorems. -/

/-- A fresh process: no named logger has handlers, all propagate (the Python
defaults), the root logger is bare, the hook is the interpreter default. -/
def freshLoggingState : SysState :=
  { loggers := fun _ => { handlers := 0, propagate := true },
    rootHandlers := 0,
    rootLevel := "WARNING",
    renderJson := false,
    excepthook := HookRef.interpreterDefault }

/-- A state in which the taskiq worker logger arrives with one directly
attached handler of its own (as the taskiq library sets up), everything else
at Python defaults. -/
def stateWithTaskiqHandler : SysState :=
  { freshLoggingState with
    loggers := fun n =>
      if n = "taskiq.worker" then { handlers := 1, propagate := true }
      else { handlers := 0, propagate := true } }

/-- A state in which some third-party code installed its own exception hook
before setup_logging runs. -/
def stateWithCustomHook : SysState :=
  { freshLoggingState with excepthook := HookRef.custom 0 }

/-- A Settings instance that supplies both options, differing from the
defaults: minimum level DEBUG and structured rendering. -/
def settingsDebugJson : Settings :=
  { LOG_LEVEL := LogLevel.DEBUG, LOG_JSON_FORMAT := true }

/-- A KeyboardInterrupt arriving at the top of the call stack. -/
def keyboardInterruptExc : ExcInfo :=
  { isKeyboardInterrupt := true, typeName := "KeyboardInterrupt",
    message := "", trace := "" }

/-- An ordinary uncaught exception arriving at the top of the call stack. -/
def sampleExc : ExcInfo :=
  { isKeyboardInterrupt := false, typeName := "ValueError",
    message := "boom", trace := "Traceback (most recent call last): ..." }

/-- A sample event dictionary containing a color_message field. -/
def sampleDictWithColor : EventDict :=
  [("event", Value.str "x"), ("color_message", Value.str "colored x")]

/-! Claim theorems. -/

/-- Claim C1: the claim states that every configured name-prefix gets its
handlers detached and its propagation flag set per its rule, the four taskiq
subtrees in particular ending with cleared handlers and propagation to the
root. Evaluating setup_logging at a state where taskiq.worker arrives with
one directly attached handler shows the code does not apply the rule: the
loop body of lines 158-160 fetches the logger named by the module name
dunder (app.log) instead of the loop variable, so taskiq.worker keeps its
handler and its propagate flag is never assigned, while the unrelated
app.log logger is silenced. -/
theorem c1_taskiq_policy_not_applied :
    ((setup_logging defaultSettings stateWithTaskiqHandler).loggers "taskiq.worker").handlers = 1 ∧
    ((setup_logging defaultSettings stateWithTaskiqHandler).loggers "taskiq.worker") =
      stateWithTaskiqHandler.loggers "taskiq.worker" ∧
    ((setup_logging defaultSettings stateWithTaskiqHandler).loggers "taskiq") =
      stateWithTaskiqHandler.loggers "taskiq" ∧
    ((setup_logging defaultSettings stateWithTaskiqHandler).loggers MODULE_NAME).propagate = false ∧
    ((setup_logging defaultSettings stateWithTaskiqHandler).loggers "uvicorn").handlers = 0 ∧
    ((setup_logging defaultSettings stateWithTaskiqHandler).loggers "uvicorn").propagate = true := by
  decide

/-- Claim C2: the claim states that setup_logging uses the minimum level and
render mode supplied by the settings collaborator, falling back to INFO and
HUMAN only when they are not supplied. The code instead reads the hard-coded
module constants of src/app/log.py lines 12-13: its result is independent of
the Settings value, and with settings supplying level DEBUG and structured
rendering it still configures the root logger at INFO with the console
(HUMAN) renderer. -/
theorem c2_setup_ignores_settings :
    (∀ a b : Settings, ∀ st : SysState, setup_logging a st = setup_logging b st) ∧
    (setup_logging settingsDebugJson freshLoggingState).rootLevel = "INFO" ∧
    (setup_logging settingsDebugJson freshLoggingState).renderJson = false ∧
    settingsDebugJson.LOG_LEVEL.val = "DEBUG" ∧
    settingsDebugJson.LOG_JSON_FORMAT = true := by
  exact ⟨fun a b st => rfl, rfl, rfl, rfl, rfl⟩

/-- Claim C3, counterexample: the claim states that on a KeyboardInterrupt
the installed hook invokes the hook that was active immediately before
installation, not merely the interpreter built-in default. In a run where a
custom hook was active before setup_logging, the installed handler still
delegates to the interpreter built-in default (sys dunder excepthook, line
168 of src/app/log.py), which is not the previously active hook. -/
theorem c3_interrupt_not_previous_hook :
    stateWithCustomHook.excepthook = HookRef.custom 0 ∧
    (setup_logging defaultSettings stateWithCustomHook).excepthook = HookRef.appHandler ∧
    (handle_exception keyboardInterruptExc).delegatedTo = some HookRef.interpreterDefault ∧
    (handle_exception keyboardInterruptExc).delegatedTo ≠ some stateWithCustomHook.excepthook ∧
    (handle_exception keyboardInterruptExc).emitted = [] := by
  decide

/-- Claim C3, amended: when the installed hook receives a KeyboardInterrupt
it delegates, unchanged, to the interpreter built-in default hook (which
coincides with the previously active hook only when no other hook had been
installed), and it emits no log record. -/
theorem c3_interrupt_delegates_to_interpreter_default (e : ExcInfo)
    (h : e.isKeyboardInterrupt = true) :
    (handle_exception e).delegatedTo = some HookRef.interpreterDefault ∧
    (handle_exception e).emitted = [] := by
  simp [handle_exception, h]

/-- Claim C3, witness: the amended statement at the concrete interrupt. -/
theorem c3_interrupt_witness :
    keyboardInterruptExc.isKeyboardInterrupt = true ∧
    ((handle_exception keyboardInterruptExc).delegatedTo = some HookRef.interpreterDefault ∧
     (handle_exception keyboardInterruptExc).emitted = []) :=
  ⟨rfl, c3_interrupt_delegates_to_interpreter_default keyboardInterruptExc rfl⟩

/-- Claim C4: the claim states that repeated setup_logging calls are
idempotent on the logging state. Evaluating the code on a fresh state shows
each call attaches one more handler to the root logger (line 134 of
src/app/log.py runs unguarded), so after two calls the root logger holds two
handlers, not the one handler the claim requires; the state after two calls
therefore differs from the state after one. -/
theorem c4_second_setup_adds_second_root_handler :
    (setup_logging defaultSettings freshLoggingState).rootHandlers = 1 ∧
    (setup_logging defaultSettings (setup_logging defaultSettings freshLoggingState)).rootHandlers = 2 ∧
    (setup_logging defaultSettings (setup_logging defaultSettings freshLoggingState)).rootHandlers ≠
      (setup_logging defaultSettings freshLoggingState).rootHandlers := by
  decide

/-- Claim C5, counterexample: the claim states that the comparison on the
level enumeration agrees with the listed order NOTSET < DEBUG < INFO <
WARNING < ERROR < FATAL; in particular NOTSET < DEBUG should hold. The
enumeration mixes in str, so its comparison is lexicographic on the string
values, and NOTSET < DEBUG is false there. -/
theorem c5_notset_debug_counterexample :
    ¬ levelLt LogLevel.NOTSET LogLevel.DEBUG := by
  decide

/-- Claim C5, amended: the comparison the enumeration actually carries is
the lexicographic comparison of the member string values, a strict total
order on the members, but in the order DEBUG < ERROR < FATAL < INFO <
NOTSET < WARNING, which disagrees with the listed severity order. -/
theorem c5_lexicographic_total_order :
    levelLt LogLevel.DEBUG LogLevel.ERROR ∧
    levelLt LogLevel.ERROR LogLevel.FATAL ∧
    levelLt LogLevel.FATAL LogLevel.INFO ∧
    levelLt LogLevel.INFO LogLevel.NOTSET ∧
    levelLt LogLevel.NOTSET LogLevel.WARNING ∧
    (∀ a b : LogLevel, a ≠ b → levelLt a b ∨ levelLt b a) ∧
    (∀ a : LogLevel, ¬ levelLt a a) := by
  decide

/-- Claim C6: for every exception other than the user interrupt that reaches
the top of the call stack, the installed hook emits exactly one
CRITICAL-level record carrying the exception type, message and full trace,
and delegates to nothing, so default termination proceeds unmodified. The
record is emitted through root_logger.critical, hence through the root
handler holding the shared ProcessorFormatter, the same chain and renderer
as any other record. -/
theorem c6_uncaught_emits_one_critical (e : ExcInfo)
    (h : e.isKeyboardInterrupt = false) :
    (handle_exception e).emitted =
      [{ level := "critical", event := "Uncaught exception",
         excInfo := some (e.typeName, e.message, e.trace) }] ∧
    (handle_exception e).delegatedTo = none := by
  simp [handle_exception, h]

/-- Claim C6, witness: the statement at a concrete ValueError. -/
theorem c6_uncaught_witness :
    sampleExc.isKeyboardInterrupt = false ∧
    ((handle_exception sampleExc).emitted =
      [{ level := "critical", event := "Uncaught exception",
         excInfo := some (sampleExc.typeName, sampleExc.message, sampleExc.trace) }] ∧
     (handle_exception sampleExc).delegatedTo = none) :=
  ⟨rfl, c6_uncaught_emits_one_critical sampleExc rfl⟩

/-- Claim C7: a record entering through the legacy/foreign path and a record
entering through the native structured path pass through the same processor
chain and renderer and produce identical rendered output. This holds for
every semantics of the third-party stages and every renderer because the
source hands the very shared_processors list both to structlog.configure
(native path) and to the ProcessorFormatter as foreign_pre_chain (foreign
path), after which both paths share remove_processors_meta and the
renderer. -/
theorem c7_native_foreign_byte_identical
    (interp : ProcessorTag → EventDict → EventDict)
    (render : EventDict → String) (logJsonFormat : Bool) (d : EventDict) :
    nativeOutput interp render logJsonFormat d =
      foreignOutput interp render logJsonFormat d := rfl

/-- Claim C8: the shared processor chain applies its stages in exactly the
order of the specification: ambient context merge, logger name, process id,
level, positional argument folding, extra-argument folding, removal of the
color_message field, ISO timestamp, stack info, unicode normalization,
callsite metadata; and the exception pre-formatting stage is appended, at
the end, exactly when the render mode is the structured one. -/
theorem c8_shared_processor_order :
    sharedProcessors false =
      [ProcessorTag.mergeContextvars, ProcessorTag.addLoggerName,
       ProcessorTag.setProcessId, ProcessorTag.addLogLevel,
       ProcessorTag.positionalArgumentsFormatter, ProcessorTag.extraAdder,
       ProcessorTag.dropColorMessageKey, ProcessorTag.timeStamperISO,
       ProcessorTag.stackInfoRenderer, ProcessorTag.unicodeDecoder,
       ProcessorTag.callsiteParameterAdder] ∧
    sharedProcessors true =
      [ProcessorTag.mergeContextvars, ProcessorTag.addLoggerName,
       ProcessorTag.setProcessId, ProcessorTag.addLogLevel,
       ProcessorTag.positionalArgumentsFormatter, ProcessorTag.extraAdder,
       ProcessorTag.dropColorMessageKey, ProcessorTag.timeStamperISO,
       ProcessorTag.stackInfoRenderer, ProcessorTag.unicodeDecoder,
       ProcessorTag.callsiteParameterAdder] ++ [ProcessorTag.formatExcInfo] ∧
    (∀ j : Bool, ProcessorTag.formatExcInfo ∈ sharedProcessors j ↔ j = true) := by
  decide

/-- Claim C9: for every event record passed through the chain, the resulting
process_id field equals the OS process identifier handed in by os.getpid,
and the value read back is identical across any two calls within the same
process run (same pid). -/
theorem c9_process_id_stable (pid : Nat) (d1 d2 : EventDict) :
    lookupKey (set_process_id pid d1) "process_id" = some (Value.int pid) ∧
    lookupKey (set_process_id pid d1) "process_id" =
      lookupKey (set_process_id pid d2) "process_id" := by
  refine ⟨lookupKey_dictSet_self d1 "process_id" (Value.int pid), ?_⟩
  simp only [set_process_id]
  rw [lookupKey_dictSet_self d1 "process_id" (Value.int pid),
      lookupKey_dictSet_self d2 "process_id" (Value.int pid)]

/-- Claim C10: for every event dictionary (with the unique keys every Python
dict has), drop_color_message_key removes the color_message key when present
and leaves every other field unchanged, and it returns the dictionary
unchanged when color_message is absent. -/
theorem c10_drop_color_message_frame (d : EventDict)
    (h : (d.map Prod.fst).Nodup) :
    (hasKey d "color_message" = false → drop_color_message_key d = d) ∧
    (∀ k : String, k ≠ "color_message" →
      lookupKey (drop_color_message_key d) k = lookupKey d k) ∧
    lookupKey (drop_color_message_key d) "color_message" = none := by
  refine ⟨?_, ?_, ?_⟩
  · intro hk
    exact dictPop_of_hasKey_false d "color_message" hk
  · intro k hk
    exact lookupKey_dictPop_ne d "color_message" k hk
  · exact lookupKey_dictPop_self d "color_message" h

/-- Claim C10, witness: the statement at a concrete two-field dictionary
containing a color_message entry. -/
theorem c10_drop_color_message_witness :
    (sampleDictWithColor.map Prod.fst).Nodup ∧
    ((hasKey sampleDictWithColor "color_message" = false →
        drop_color_message_key sampleDictWithColor = sampleDictWithColor) ∧
     (∀ k : String, k ≠ "color_message" →
        lookupKey (drop_color_message_key sampleDictWithColor) k =
          lookupKey sampleDictWithColor k) ∧
     lookupKey (drop_color_message_key sampleDictWithColor) "color_message" = none) :=
  ⟨by decide, c10_drop_color_message_frame sampleDictWithColor (by decide)⟩

end App
